/-
Verification of the threedi-modelchecker check engine against its
natural-language specification.

The definitions below are shallow embeddings of the Python source:
  * checks/cross_section_definitions.py : cross_section_configuration and
    CrossSectionMinimumDiameterCheck.get_invalid (per-record logic),
  * checks/other.py : PotentialBreachInterdistanceCheck.get_invalid,
  * checks/raster.py : the per-raster is_valid methods of the raster checks,
  * checks/base.py : RangeCheck.get_invalid and ConditionalCheck.get_invalid,
  * exporters.py : format_check_results.

Python floats are embedded as rationals; machine reads of a raster are
embedded as an abstract record of the observations the RasterInterface
getters would return, with Option capturing getters whose call can fail.
Functions that can raise in Python return Option/Except here, with none /
error marking the exceptional exit.
-/
import Mathlib

namespace ThreediModelchecker

/-! ### Cross-section shape constants

Values of the CrossSectionShape enum of the external threedi_schema package
(the source compares `shape` against `constants.CrossSectionShape.X.value`).
The numeric values 0, 1, 5, 7 are pinned by the spec (section 8); 2, 3, 6
appear in threedi_model/constants.py; INVERTED_EGG is the remaining member.
-/

namespace CrossSectionShape

def CLOSED_RECTANGLE : ℕ := 0

def RECTANGLE : ℕ := 1

def CIRCLE : ℕ := 2

def EGG : ℕ := 3

def TABULATED_RECTANGLE : ℕ := 5

def TABULATED_TRAPEZIUM : ℕ := 6

def TABULATED_YZ : ℕ := 7

def INVERTED_EGG : ℕ := 8

end CrossSectionShape

/-- Python `max(xs)` on a nonempty list (the source only applies it after
defaulting empty lists to `[0]`; the `[]` case is never reached). -/
def pyMax : List ℚ → ℚ
  | [] => 0
  | x :: xs => xs.foldl max x

/-- Python `min(xs)` on a nonempty list (same remark as `pyMax`). -/
def pyMin : List ℚ → ℚ
  | [] => 0
  | x :: xs => xs.foldl min x

/-- Python `round` ties-to-even, applied to a rational scaled to integer. -/
def roundHalfToEven (q : ℚ) : ℤ :=
  let f := ⌊q⌋
  let r := q - f
  if r < 1 / 2 then f
  else if 1 / 2 < r then f + 1
  else if f % 2 = 0 then f else f + 1

/-- Python `round(q, d)`: round to `d` decimal places, ties to even. -/
def pyRoundTo (d : ℕ) (q : ℚ) : ℚ :=
  (roundHalfToEven (q * 10 ^ d) : ℚ) / 10 ^ d

/-- Embedding of `cross_section_configuration(shape, heights, widths)` from
checks/cross_section_definitions.py.  The result is
`some (max_width, max_height, configuration)`; `max_height` is `none` where
Python assigns `None` (the RECTANGLE branch).  The overall result is `none`
where the Python function falls off the end of its if-chain with
`configuration` (or `max_width`) unassigned, so that the `return` statement
raises UnboundLocalError: an unrecognized `shape`, or a
TABULATED_RECTANGLE / TABULATED_TRAPEZIUM profile whose last width is
negative (neither `last_width == 0` nor `last_width > 0` holds). -/
def cross_section_configuration (shape : ℕ) (heights widths : List ℚ) :
    Option (ℚ × Option ℚ × String) :=
  if shape = CrossSectionShape.CLOSED_RECTANGLE then
    let widths := if widths.isEmpty then [0] else widths
    let heights := if heights.isEmpty then [0] else heights
    some (pyMax widths, some (pyMax heights), "closed")
  else if shape = CrossSectionShape.RECTANGLE then
    let widths := if widths.isEmpty then [0] else widths
    some (pyMax widths, none, "open")
  else if shape = CrossSectionShape.CIRCLE then
    let widths := if widths.isEmpty then [0] else widths
    some (pyMax widths, some (pyMax widths), "closed")
  else if shape = CrossSectionShape.EGG ∨ shape = CrossSectionShape.INVERTED_EGG then
    let widths := if widths.isEmpty then [0] else widths
    some (pyMax widths, some (3 / 2 * pyMax widths), "closed")
  else if shape = CrossSectionShape.TABULATED_RECTANGLE ∨
      shape = CrossSectionShape.TABULATED_TRAPEZIUM then
    let widths := if widths.isEmpty then [0] else widths
    let heights := if heights.isEmpty then [0] else heights
    let last_width := widths.getLast!
    if last_width = 0 then
      some (pyMax widths, some (pyMax heights), "closed")
    else if 0 < last_width then
      some (pyMax widths, some (pyMax heights), "open")
    else none
  else if shape = CrossSectionShape.TABULATED_YZ then
    let widths := if widths.isEmpty then [0] else widths
    let heights := if heights.isEmpty then [0] else heights
    let max_width := pyRoundTo 9 (pyMax widths - pyMin widths)
    let max_height := pyRoundTo 9 (pyMax heights - pyMin heights)
    if widths.head! = widths.getLast! ∧ heights.head! = heights.getLast! then
      some (max_width, some max_height, "closed")
    else
      some (max_width, some max_height, "open")
  else none

/-- The shape values `cross_section_configuration` has a branch for. -/
def recognizedCrossSectionShapes : List ℕ :=
  [CrossSectionShape.CLOSED_RECTANGLE, CrossSectionShape.RECTANGLE,
   CrossSectionShape.CIRCLE, CrossSectionShape.EGG,
   CrossSectionShape.TABULATED_RECTANGLE, CrossSectionShape.TABULATED_TRAPEZIUM,
   CrossSectionShape.TABULATED_YZ, CrossSectionShape.INVERTED_EGG]

/-- Embedding of the per-record body of
`CrossSectionMinimumDiameterCheck.get_invalid` (checks/cross_section_definitions.py),
after the width string has been parsed to `widths` and the height string to
`heights` (empty when the height column is NULL or empty).  Returns
`some true` when the record is appended to `invalids`, `some false` when it
is not, `none` when the Python code raises (UnboundLocalError out of
`cross_section_configuration`, or TypeError comparing `None < 0.1`). -/
def crossSectionMinimumDiameterFlag (shape : ℕ) (widths heights : List ℚ) :
    Option Bool :=
  match cross_section_configuration shape heights widths with
  | none => none
  | some (max_width, max_height, configuration) =>
    if configuration = "closed" then
      match max_height with
      | none => none
      | some mh => some (decide (mh < 1 / 10) || decide (max_width < 1 / 10))
    else if configuration = "open" then
      some (decide (max_width < 1 / 10))
    else some false


/-! ### Theorems about the cross-section classification -/

/-- Helper: whenever the classification succeeds with configuration
`"closed"`, a max height was assigned (only the RECTANGLE branch leaves it
`None`, and that branch is `"open"`). -/
theorem closed_config_has_height {shape : ℕ} {heights widths : List ℚ}
    {mw : ℚ} {mh : Option ℚ}
    (h : cross_section_configuration shape heights widths = some (mw, mh, "closed")) :
    ∃ hq, mh = some hq := by
  unfold cross_section_configuration at h
  split_ifs at h
  all_goals try simp only [Option.some.injEq, Prod.mk.injEq] at h
  all_goals try split_ifs at h
  all_goals try simp only [Option.some.injEq, Prod.mk.injEq] at h
  all_goals first
    | exact ⟨_, h.2.1.symm⟩
    | exact absurd h.2.2 (by decide)

/-- C2 counterexample: for shape TABULATED_RECTANGLE with widths whose last
element is -1 (nonzero), `cross_section_configuration` does not return
`"open"` (nor anything else): it fails with UnboundLocalError, embedded as
`none`.  This refutes the claim that `"open"` is returned in every case
where the last width is nonzero. -/
theorem cross_section_configuration_negative_last_width :
    cross_section_configuration CrossSectionShape.TABULATED_RECTANGLE [1] [1, -1] = none
    ∧ List.getLast! [(1 : ℚ), -1] ≠ 0 := by
  constructor
  · norm_num [cross_section_configuration, CrossSectionShape.CLOSED_RECTANGLE,
      CrossSectionShape.RECTANGLE, CrossSectionShape.CIRCLE, CrossSectionShape.EGG,
      CrossSectionShape.INVERTED_EGG, CrossSectionShape.TABULATED_RECTANGLE,
      CrossSectionShape.TABULATED_TRAPEZIUM, List.getLast!]
  · norm_num [List.getLast!]

/-- C2 (amended): for shape TABULATED_RECTANGLE or TABULATED_TRAPEZIUM and
nonempty widths and heights lists, the classification returns a triple
exactly when the last width is nonnegative; then the configuration is
`"closed"` iff the last element of the widths list equals 0 (else `"open"`),
and max_width / max_height are the plain maxima of the two lists.  When the
last width is negative no configuration is assigned and the function fails. -/
theorem cross_section_configuration_tabulated (shape : ℕ)
    (hs : shape = CrossSectionShape.TABULATED_RECTANGLE ∨
      shape = CrossSectionShape.TABULATED_TRAPEZIUM)
    (heights widths : List ℚ) (hw : widths ≠ []) (hh : heights ≠ [])
    (mw : ℚ) (mh : Option ℚ) (cfg : String) :
    cross_section_configuration shape heights widths = some (mw, mh, cfg) ↔
      0 ≤ widths.getLast! ∧ mw = pyMax widths ∧ mh = some (pyMax heights) ∧
        cfg = (if widths.getLast! = 0 then "closed" else "open") := by
  have hwe : widths.isEmpty = false := by simp [List.isEmpty_iff, hw]
  have hhe : heights.isEmpty = false := by simp [List.isEmpty_iff, hh]
  have hwe : (if widths.isEmpty then [0] else widths) = widths := by
    simp [List.isEmpty_iff, hw]
  have hhe : (if heights.isEmpty then [0] else heights) = heights := by
    simp [List.isEmpty_iff, hh]
  rcases hs with rfl | rfl <;>
  · rw [cross_section_configuration]
    rw [if_neg (by norm_num [CrossSectionShape.CLOSED_RECTANGLE, CrossSectionShape.TABULATED_RECTANGLE, CrossSectionShape.TABULATED_TRAPEZIUM]),
      if_neg (by norm_num [CrossSectionShape.RECTANGLE, CrossSectionShape.TABULATED_RECTANGLE, CrossSectionShape.TABULATED_TRAPEZIUM]),
      if_neg (by norm_num [CrossSectionShape.CIRCLE, CrossSectionShape.TABULATED_RECTANGLE, CrossSectionShape.TABULATED_TRAPEZIUM]),
      if_neg (by norm_num [CrossSectionShape.EGG, CrossSectionShape.INVERTED_EGG, CrossSectionShape.TABULATED_RECTANGLE, CrossSectionShape.TABULATED_TRAPEZIUM]),
      if_pos (by norm_num [CrossSectionShape.TABULATED_RECTANGLE, CrossSectionShape.TABULATED_TRAPEZIUM])]
    simp only [hwe, hhe]
    split_ifs with h1 h2
    · simp only [Option.some.injEq, Prod.mk.injEq]
      constructor
      · rintro ⟨rfl, rfl, rfl⟩
        exact ⟨le_of_eq h1.symm, rfl, rfl, rfl⟩
      · rintro ⟨-, rfl, rfl, rfl⟩
        exact ⟨rfl, rfl, rfl⟩
    · simp only [Option.some.injEq, Prod.mk.injEq]
      constructor
      · rintro ⟨rfl, rfl, rfl⟩
        exact ⟨h2.le, rfl, rfl, rfl⟩
      · rintro ⟨-, rfl, rfl, rfl⟩
        exact ⟨rfl, rfl, rfl⟩
    · have hneg : widths.getLast! < 0 := lt_of_le_of_ne (not_lt.mp h2) h1
      constructor
      · intro hcon
        exact absurd hcon (by simp)
      · rintro ⟨hle, -⟩
        exact absurd hle (not_le.mpr hneg)



/-- C8: `cross_section_configuration` returns a `(max_width, max_height,
configuration)` triple exactly on the recognized shape values and, for
TABULATED_RECTANGLE and TABULATED_TRAPEZIUM, only provided the last element
of the (defaulted) widths list is nonnegative; when that last width is
negative, and when the shape value is unrecognized, no configuration is
assigned and the function fails instead of returning (embedded `none`). -/
theorem cross_section_configuration_total_iff (shape : ℕ) (heights widths : List ℚ) :
    (cross_section_configuration shape heights widths).isSome = true ↔
      shape ∈ recognizedCrossSectionShapes ∧
        ((shape = CrossSectionShape.TABULATED_RECTANGLE ∨
            shape = CrossSectionShape.TABULATED_TRAPEZIUM) →
          0 ≤ (if widths.isEmpty then [0] else widths).getLast!) := by
  by_cases hs0 : shape = CrossSectionShape.CLOSED_RECTANGLE
  · subst hs0
    simp [cross_section_configuration, recognizedCrossSectionShapes,
      CrossSectionShape.CLOSED_RECTANGLE, CrossSectionShape.RECTANGLE, CrossSectionShape.CIRCLE,
      CrossSectionShape.EGG, CrossSectionShape.TABULATED_RECTANGLE,
      CrossSectionShape.TABULATED_TRAPEZIUM, CrossSectionShape.TABULATED_YZ,
      CrossSectionShape.INVERTED_EGG]
  by_cases hs1 : shape = CrossSectionShape.RECTANGLE
  · subst hs1
    simp [cross_section_configuration, recognizedCrossSectionShapes,
      CrossSectionShape.CLOSED_RECTANGLE, CrossSectionShape.RECTANGLE, CrossSectionShape.CIRCLE,
      CrossSectionShape.EGG, CrossSectionShape.TABULATED_RECTANGLE,
      CrossSectionShape.TABULATED_TRAPEZIUM, CrossSectionShape.TABULATED_YZ,
      CrossSectionShape.INVERTED_EGG]
  by_cases hs2 : shape = CrossSectionShape.CIRCLE
  · subst hs2
    simp [cross_section_configuration, recognizedCrossSectionShapes,
      CrossSectionShape.CLOSED_RECTANGLE, CrossSectionShape.RECTANGLE, CrossSectionShape.CIRCLE,
      CrossSectionShape.EGG, CrossSectionShape.TABULATED_RECTANGLE,
      CrossSectionShape.TABULATED_TRAPEZIUM, CrossSectionShape.TABULATED_YZ,
      CrossSectionShape.INVERTED_EGG]
  by_cases hs3 : shape = CrossSectionShape.EGG
  · subst hs3
    simp [cross_section_configuration, recognizedCrossSectionShapes,
      CrossSectionShape.CLOSED_RECTANGLE, CrossSectionShape.RECTANGLE, CrossSectionShape.CIRCLE,
      CrossSectionShape.EGG, CrossSectionShape.TABULATED_RECTANGLE,
      CrossSectionShape.TABULATED_TRAPEZIUM, CrossSectionShape.TABULATED_YZ,
      CrossSectionShape.INVERTED_EGG]
  by_cases hs8 : shape = CrossSectionShape.INVERTED_EGG
  · subst hs8
    simp [cross_section_configuration, recognizedCrossSectionShapes,
      CrossSectionShape.CLOSED_RECTANGLE, CrossSectionShape.RECTANGLE, CrossSectionShape.CIRCLE,
      CrossSectionShape.EGG, CrossSectionShape.TABULATED_RECTANGLE,
      CrossSectionShape.TABULATED_TRAPEZIUM, CrossSectionShape.TABULATED_YZ,
      CrossSectionShape.INVERTED_EGG]
  by_cases hs7 : shape = CrossSectionShape.TABULATED_YZ
  · subst hs7
    simp only [cross_section_configuration, recognizedCrossSectionShapes,
      CrossSectionShape.CLOSED_RECTANGLE, CrossSectionShape.RECTANGLE, CrossSectionShape.CIRCLE,
      CrossSectionShape.EGG, CrossSectionShape.TABULATED_RECTANGLE,
      CrossSectionShape.TABULATED_TRAPEZIUM, CrossSectionShape.TABULATED_YZ,
      CrossSectionShape.INVERTED_EGG]
    norm_num
    split_ifs <;> simp
  by_cases hs56 : shape = CrossSectionShape.TABULATED_RECTANGLE ∨
      shape = CrossSectionShape.TABULATED_TRAPEZIUM
  · have hmem : shape ∈ recognizedCrossSectionShapes := by
      rcases hs56 with rfl | rfl <;>
        simp [recognizedCrossSectionShapes, CrossSectionShape.TABULATED_RECTANGLE,
          CrossSectionShape.TABULATED_TRAPEZIUM]
    have hgoal : ∀ (L : ℚ) (A B : ℚ × Option ℚ × String),
        ((if L = 0 then some A else if 0 < L then some B else none)).isSome = true ↔
          0 ≤ L := by
      intro L A B
      split_ifs with h1 h2
      · simp [h1.ge]
      · simp [h2.le]
      · simp only [Option.isSome_none, Bool.false_eq_true, false_iff]
        exact fun hc => absurd (lt_of_le_of_ne (not_lt.mp h2) h1) (not_lt.mpr hc)
    rcases hs56 with rfl | rfl <;>
    · rw [cross_section_configuration]
      rw [if_neg (by norm_num [CrossSectionShape.CLOSED_RECTANGLE,
            CrossSectionShape.TABULATED_RECTANGLE, CrossSectionShape.TABULATED_TRAPEZIUM]),
          if_neg (by norm_num [CrossSectionShape.RECTANGLE,
            CrossSectionShape.TABULATED_RECTANGLE, CrossSectionShape.TABULATED_TRAPEZIUM]),
          if_neg (by norm_num [CrossSectionShape.CIRCLE,
            CrossSectionShape.TABULATED_RECTANGLE, CrossSectionShape.TABULATED_TRAPEZIUM]),
          if_neg (by norm_num [CrossSectionShape.EGG, CrossSectionShape.INVERTED_EGG,
            CrossSectionShape.TABULATED_RECTANGLE, CrossSectionShape.TABULATED_TRAPEZIUM]),
          if_pos (by norm_num [CrossSectionShape.TABULATED_RECTANGLE,
            CrossSectionShape.TABULATED_TRAPEZIUM])]
      simp only [recognizedCrossSectionShapes, List.mem_cons, List.not_mem_nil, or_false,
        CrossSectionShape.CLOSED_RECTANGLE, CrossSectionShape.RECTANGLE,
        CrossSectionShape.CIRCLE, CrossSectionShape.EGG, CrossSectionShape.TABULATED_RECTANGLE,
        CrossSectionShape.TABULATED_TRAPEZIUM, CrossSectionShape.TABULATED_YZ,
        CrossSectionShape.INVERTED_EGG]
      norm_num
      exact hgoal _ _ _
  · obtain ⟨hs5, hs6⟩ := not_or.mp hs56
    rw [cross_section_configuration]
    rw [if_neg hs0, if_neg hs1, if_neg hs2,
        if_neg (fun h => h.elim hs3 hs8),
        if_neg (fun h => h.elim hs5 hs6),
        if_neg hs7]
    simp only [recognizedCrossSectionShapes, List.mem_cons, List.not_mem_nil, or_false,
      Option.isSome_none, Bool.false_eq_true, false_iff, not_and]
    simp [hs0, hs1, hs2, hs3, hs5, hs6, hs7, hs8]

/-- C2 witness: the theorem applied to the spec's own example, shape
TABULATED_RECTANGLE with width "0.04 0.1 0" and height "0.06 0.2". -/
theorem cross_section_configuration_tabulated_witness :
    cross_section_configuration CrossSectionShape.TABULATED_RECTANGLE
      [3 / 50, 1 / 5] [1 / 25, 1 / 10, 0] = some (1 / 10, some (1 / 5), "closed") := by
  refine (cross_section_configuration_tabulated CrossSectionShape.TABULATED_RECTANGLE
    (Or.inl rfl) [3 / 50, 1 / 5] [1 / 25, 1 / 10, 0] (by simp) (by simp)
    (1 / 10) (some (1 / 5)) "closed").mpr ?_
  refine ⟨by norm_num [List.getLast!], by norm_num [pyMax], by norm_num [pyMax], ?_⟩
  norm_num [List.getLast!]

/-- C5: whenever the classification of a record succeeds, the
minimum-diameter check flags the record exactly as the claim states: a
closed cross-section is flagged iff max_height < 0.1 or max_width < 0.1 (a
max height was always assigned when the configuration is closed), an open
cross-section is flagged iff max_width < 0.1, and an open cross-section
with max_width >= 0.1 is never flagged, its max height being ignored. -/
theorem minimum_diameter_flag_spec (shape : ℕ) (widths heights : List ℚ)
    (mw : ℚ) (mh : Option ℚ) (cfg : String)
    (h : cross_section_configuration shape heights widths = some (mw, mh, cfg)) :
    (cfg = "closed" → ∃ hq, mh = some hq ∧
        crossSectionMinimumDiameterFlag shape widths heights =
          some (decide (hq < 1 / 10) || decide (mw < 1 / 10)))
    ∧ (cfg = "open" →
        crossSectionMinimumDiameterFlag shape widths heights =
          some (decide (mw < 1 / 10)))
    ∧ (cfg = "open" → 1 / 10 ≤ mw →
        crossSectionMinimumDiameterFlag shape widths heights = some false) := by
  refine ⟨?_, ?_, ?_⟩
  · rintro rfl
    obtain ⟨hq, rfl⟩ := closed_config_has_height h
    refine ⟨hq, rfl, ?_⟩
    unfold crossSectionMinimumDiameterFlag
    rw [h]
    rfl
  · rintro rfl
    unfold crossSectionMinimumDiameterFlag
    rw [h]
    rfl
  · rintro rfl hle
    have hd : decide (mw < 1 / 10) = false := decide_eq_false (not_lt.mpr hle)
    unfold crossSectionMinimumDiameterFlag
    rw [h]
    show some (decide (mw < 1 / 10)) = some false
    rw [hd]

/-- C5 witness: the theorem applied to the spec's two examples: a closed
cross-section with max_width 0.05 is flagged whatever its height; an open
one with max_width 0.1 and max_height 0.03 is not flagged. -/
theorem minimum_diameter_flag_witness :
    crossSectionMinimumDiameterFlag CrossSectionShape.CLOSED_RECTANGLE [1 / 20] [1 / 5] = some true
    ∧ crossSectionMinimumDiameterFlag CrossSectionShape.TABULATED_RECTANGLE
        [1 / 10, 1 / 10] [0, 3 / 100] = some false := by
  constructor
  · obtain ⟨hq, hmh, hflag⟩ :=
      (minimum_diameter_flag_spec CrossSectionShape.CLOSED_RECTANGLE [1 / 20] [1 / 5]
        (1 / 20) (some (1 / 5)) "closed"
        (by norm_num [cross_section_configuration, CrossSectionShape.CLOSED_RECTANGLE,
          pyMax])).1 rfl
    injection hmh with hq5
    subst hq5
    rw [hflag, decide_eq_true (by norm_num : (1 : ℚ) / 20 < 1 / 10), Bool.or_true]
  · exact (minimum_diameter_flag_spec CrossSectionShape.TABULATED_RECTANGLE
      [1 / 10, 1 / 10] [0, 3 / 100] (1 / 10) (some (3 / 100)) "open"
      (by norm_num [cross_section_configuration, CrossSectionShape.CLOSED_RECTANGLE,
        CrossSectionShape.RECTANGLE, CrossSectionShape.CIRCLE, CrossSectionShape.EGG,
        CrossSectionShape.INVERTED_EGG, CrossSectionShape.TABULATED_RECTANGLE,
        CrossSectionShape.TABULATED_TRAPEZIUM, pyMax, List.getLast!])).2.2 rfl (by norm_num)

/-! ### Breach interdistance check (checks/other.py) -/

/-- A row of the query in `PotentialBreachInterdistanceCheck.get_invalid`:
a potential breach joined with its channel, together with the computed
length-normalized `position` label along the channel. -/
structure PotentialBreach where
  channel_id : ℤ
  position : ℚ
  id : ℕ
deriving DecidableEq

/-- The sort key of the Python `sorted(..., key=lambda x: (x.channel_id, x[-1]))`:
lexicographic order on (channel_id, position). -/
def breachKeyLe (a b : PotentialBreach) : Bool :=
  decide (a.channel_id < b.channel_id ∨
    (a.channel_id = b.channel_id ∧ a.position ≤ b.position))

/-- Stable insertion into an already sorted list (an element with an equal
key goes after the existing ones it is inserted before, matching the
stability of Python's `sorted`). -/
def pySortedInsert (x : PotentialBreach) :
    List PotentialBreach → List PotentialBreach
  | [] => [x]
  | y :: ys => if breachKeyLe x y then x :: y :: ys else y :: pySortedInsert x ys

/-- Stable sort by (channel_id, position), as Python's `sorted` does. -/
def pySortBreaches (l : List PotentialBreach) : List PotentialBreach :=
  l.foldr pySortedInsert []

/-- The scan loop of `PotentialBreachInterdistanceCheck.get_invalid`,
verbatim: `prev_channel_id` / `prev_position` are only reassigned when the
channel changes, every same-position breach is skipped, and a breach whose
position is within `min_distance` (inclusive) of `prev_position` is
appended to the invalid list. -/
def breachSweep (min_distance : ℚ) :
    ℤ → ℚ → List PotentialBreach → List PotentialBreach
  | _, _, [] => []
  | prev_channel_id, prev_position, breach :: rest =>
    if breach.channel_id ≠ prev_channel_id then
      breachSweep min_distance breach.channel_id breach.position rest
    else if breach.position = prev_position then
      breachSweep min_distance prev_channel_id prev_position rest
    else if breach.position - prev_position ≤ min_distance then
      breach :: breachSweep min_distance prev_channel_id prev_position rest
    else
      breachSweep min_distance prev_channel_id prev_position rest

/-- Embedding of `PotentialBreachInterdistanceCheck.get_invalid`
(checks/other.py): sort all breaches by (channel_id, position), then run the
scan loop starting from the sentinel previous state (-9999, -1.0). -/
def potentialBreachInterdistanceInvalid (min_distance : ℚ)
    (breaches : List PotentialBreach) : List PotentialBreach :=
  breachSweep min_distance (-9999) (-1) (pySortBreaches breaches)

/-- Modelled from the spec: the sweep the claim (and the check's docstring
"exactly on the same place or >= 1 m apart") describes, comparing every
breach to its immediate predecessor in the sorted order: the previous
position is updated at every element, a breach exactly coincident with its
predecessor is allowed, and a breach at least `min_distance` from its
predecessor is allowed; only a breach strictly between those is flagged. -/
def breachSweepByPredecessor (min_distance : ℚ) :
    ℤ → ℚ → List PotentialBreach → List PotentialBreach
  | _, _, [] => []
  | prev_channel_id, prev_position, breach :: rest =>
    if breach.channel_id ≠ prev_channel_id then
      breachSweepByPredecessor min_distance breach.channel_id breach.position rest
    else if breach.position = prev_position then
      breachSweepByPredecessor min_distance breach.channel_id breach.position rest
    else if breach.position - prev_position < min_distance then
      breach :: breachSweepByPredecessor min_distance breach.channel_id breach.position rest
    else
      breachSweepByPredecessor min_distance breach.channel_id breach.position rest

/-- Modelled from the spec: the whole interdistance check as the claim
states it, with the same sorting as the code but the adjacent-predecessor
sweep. -/
def potentialBreachInterdistanceInvalidSpec (min_distance : ℚ)
    (breaches : List PotentialBreach) : List PotentialBreach :=
  breachSweepByPredecessor min_distance (-9999) (-1) (pySortBreaches breaches)

/-- C1: the failing input.  Three breaches on one channel at
length-normalized positions 0, 20 and 25, with min_distance 10. -/
def c1Breaches : List PotentialBreach :=
  [⟨1, 0, 1⟩, ⟨1, 20, 2⟩, ⟨1, 25, 3⟩]

/-- C1: the code flags nothing on the failing input, because the loop in
`get_invalid` only reassigns `prev_position` when the channel changes, so
every breach is compared against the first breach of its channel (here at
position 0, farther than 10) instead of its immediate predecessor; the
claimed sweep must flag the breach at position 25, which is only 5 from its
immediate predecessor at 20 while not coincident with it. -/
theorem potential_breach_interdistance_code_bug :
    potentialBreachInterdistanceInvalid 10 c1Breaches = []
    ∧ potentialBreachInterdistanceInvalidSpec 10 c1Breaches =
        [⟨1, 25, 3⟩] := by
  constructor <;>
    norm_num [potentialBreachInterdistanceInvalid, potentialBreachInterdistanceInvalidSpec,
      pySortBreaches, pySortedInsert, breachKeyLe, breachSweep, breachSweepByPredecessor,
      c1Breaches]

/-! ### Raster checks (checks/raster.py)

A raster file is embedded as the record of observations the opened
RasterInterface would report.  `shape` is an Option because reading it can
raise when the file could not be opened as a raster at all (the dataset is
absent); `pixel_size` is `none` when the interface reports `(None, None)`;
`min_max` distinguishes the interface's NoData signal, a value pair, and
any other exception escaping the backend. -/

/-- Outcome of `RasterInterface.min_max`: the distinguished NoData signal,
a pair of optional bounds, or another exception propagating out. -/
inductive MinMaxResult where
  | noData : MinMaxResult
  | values : Option ℚ → Option ℚ → MinMaxResult
  | err : MinMaxResult
deriving DecidableEq

/-- Observations of one opened raster. -/
structure RasterFile where
  is_valid_geotiff : Bool
  band_count : ℕ
  has_projection : Bool
  is_geographic : Bool
  pixel_size : Option (ℚ × ℚ)
  shape : Option (ℕ × ℕ)
  min_max : MinMaxResult

/-- Python `math.isclose(a, b, rel_tol)` with the default `abs_tol = 0`. -/
def pyIsClose (rel_tol a b : ℚ) : Bool :=
  decide (|a - b| ≤ max (rel_tol * |a|) (rel_tol * |b|))

/-- Python float `a % b` (the binary operator): `a - b * floor (a / b)`. -/
def pyFMod (a b : ℚ) : ℚ :=
  a - b * ⌊a / b⌋

namespace RasterIsValidCheck

/-- `RasterIsValidCheck.is_valid`. -/
def is_valid (r : RasterFile) : Bool :=
  r.is_valid_geotiff

end RasterIsValidCheck

namespace RasterHasOneBandCheck

/-- `RasterHasOneBandCheck.is_valid`. -/
def is_valid (r : RasterFile) : Bool :=
  if !r.is_valid_geotiff then true
  else decide (r.band_count = 1)

end RasterHasOneBandCheck

namespace RasterHasProjectionCheck

/-- `RasterHasProjectionCheck.is_valid`. -/
def is_valid (r : RasterFile) : Bool :=
  if !r.is_valid_geotiff then true
  else r.has_projection

end RasterHasProjectionCheck

namespace RasterIsProjectedCheck

/-- `RasterIsProjectedCheck.is_valid`. -/
def is_valid (r : RasterFile) : Bool :=
  if !r.is_valid_geotiff || !r.has_projection then true
  else !r.is_geographic

end RasterIsProjectedCheck

namespace RasterSquareCellsCheck

/-- `RasterSquareCellsCheck.is_valid` with its `decimals` parameter
(default 7): `dx is not None and round(dx, decimals) == round(dy, decimals)`. -/
def is_valid (decimals : ℕ) (r : RasterFile) : Bool :=
  if !r.is_valid_geotiff then true
  else
    match r.pixel_size with
    | none => false
    | some (dx, dy) => decide (pyRoundTo decimals dx = pyRoundTo decimals dy)

end RasterSquareCellsCheck

namespace RasterGridSizeCheck

/-- `RasterGridSizeCheck.is_valid`, given the first global settings row's
`grid_space` (`none` embeds SQL NULL).  The `try/except TypeError` around
the arithmetic turns a `None` grid space or pixel size into a pass; a zero
pixel size raises ZeroDivisionError, which is not caught (`none`). -/
def is_valid (grid_space : Option ℚ) (r : RasterFile) : Option Bool :=
  if !r.is_valid_geotiff then some true
  else
    match grid_space, r.pixel_size with
    | some gs, some (dx, _) =>
        if dx = 0 then none
        else some (pyIsClose (1 / 10 ^ 9) (pyFMod (gs / dx) 2) 0
          && decide (gs ≥ 2 * dx))
    | _, _ => some true

end RasterGridSizeCheck

namespace RasterPixelCountCheck

/-- `RasterPixelCountCheck.is_valid` with its `max_pixels` parameter
(default 5e9).  Note there is no `is_valid_geotiff` guard in the source:
`raster.shape` is read unconditionally; when that read raises (`shape` is
`none`) the exception escapes (`none`). -/
def is_valid (max_pixels : ℚ) (r : RasterFile) : Option Bool :=
  match r.shape with
  | none => none
  | some (width, height) => some (decide (((width * height : ℕ) : ℚ) ≤ max_pixels))

end RasterPixelCountCheck

namespace RasterRangeCheck

/-- `RasterRangeCheck.is_valid`: a non-geotiff passes; the NoData signal
from `raster.min_max` is caught and returns False (a violation); any other
backend exception propagates (`none`); a `None` bound in the returned pair
is False; otherwise the configured bound comparisons run. -/
def is_valid (min_value max_value : Option ℚ) (left_inclusive right_inclusive : Bool)
    (r : RasterFile) : Option Bool :=
  if !r.is_valid_geotiff then some true
  else
    match r.min_max with
    | MinMaxResult.err => none
    | MinMaxResult.noData => some false
    | MinMaxResult.values raster_min raster_max =>
      match raster_min, raster_max with
      | some rmin, some rmax =>
        some ((match min_value with
               | none => true
               | some mv => !(if left_inclusive then decide (rmin < mv)
                              else decide (rmin ≤ mv)))
          && (match max_value with
              | none => true
              | some mv => !(if right_inclusive then decide (mv < rmax)
                             else decide (mv ≤ rmax))))
      | _, _ => some false

end RasterRangeCheck

/-- C4 counterexample input: a file that is not a valid geotiff (for
instance a large raster in another format, which the backend opens with a
driver other than GTiff) with 100000 x 100000 pixels. -/
def invalidHugeRaster : RasterFile where
  is_valid_geotiff := false
  band_count := 3
  has_projection := false
  is_geographic := true
  pixel_size := none
  shape := some (100000, 100000)
  min_max := MinMaxResult.err

/-- C4 counterexample: the pixel-count check reads `raster.shape` without
consulting `is_valid_geotiff`, so this non-geotiff raster is flagged
(`is_valid` returns False, not True as the claim requires of every metric
check). -/
theorem raster_pixel_count_flags_invalid_raster :
    invalidHugeRaster.is_valid_geotiff = false
    ∧ RasterPixelCountCheck.is_valid 5000000000 invalidHugeRaster = some false := by
  constructor
  · rfl
  · norm_num [RasterPixelCountCheck.is_valid, invalidHugeRaster]

/-- C4 (amended): the single-band, has-projection, is-projected,
square-pixel, grid-size and value-range checks all treat a raster that is
not a valid geotiff as passing; the pixel-count check is the exception (see
the counterexample). -/
theorem raster_metric_checks_pass_invalid_raster (r : RasterFile)
    (h : r.is_valid_geotiff = false) :
    RasterHasOneBandCheck.is_valid r = true
    ∧ RasterHasProjectionCheck.is_valid r = true
    ∧ RasterIsProjectedCheck.is_valid r = true
    ∧ (∀ decimals, RasterSquareCellsCheck.is_valid decimals r = true)
    ∧ (∀ grid_space, RasterGridSizeCheck.is_valid grid_space r = some true)
    ∧ (∀ mn mx li ri, RasterRangeCheck.is_valid mn mx li ri r = some true) := by
  refine ⟨?_, ?_, ?_, fun d => ?_, fun gs => ?_, fun mn mx li ri => ?_⟩ <;>
    simp [RasterHasOneBandCheck.is_valid, RasterHasProjectionCheck.is_valid,
      RasterIsProjectedCheck.is_valid, RasterSquareCellsCheck.is_valid,
      RasterGridSizeCheck.is_valid, RasterRangeCheck.is_valid, h]

/-- C4 witness: the amended theorem applied to the concrete non-geotiff
raster above. -/
theorem raster_metric_checks_pass_invalid_raster_witness :
    RasterHasOneBandCheck.is_valid invalidHugeRaster = true
    ∧ RasterGridSizeCheck.is_valid (some 10) invalidHugeRaster = some true :=
  ⟨(raster_metric_checks_pass_invalid_raster invalidHugeRaster rfl).1,
    (raster_metric_checks_pass_invalid_raster invalidHugeRaster rfl).2.2.2.2.1 (some 10)⟩

/-- C6 witness input: a valid geotiff whose backend signals NoData for the
value range. -/
def noDataRaster : RasterFile where
  is_valid_geotiff := true
  band_count := 1
  has_projection := true
  is_geographic := false
  pixel_size := some (1, 1)
  shape := some (10, 10)
  min_max := MinMaxResult.noData

/-- C6: for every configured RasterRangeCheck (at least one bound set, any
inclusivity flags), a valid geotiff whose backend signals the distinguished
NoData condition is flagged: `is_valid` returns `some false`, a violation
rather than an exception escaping the check. -/
theorem raster_range_check_flags_no_data (min_value max_value : Option ℚ)
    (left_inclusive right_inclusive : Bool)
    (hcfg : min_value ≠ none ∨ max_value ≠ none)
    (r : RasterFile) (hv : r.is_valid_geotiff = true)
    (hnd : r.min_max = MinMaxResult.noData) :
    RasterRangeCheck.is_valid min_value max_value left_inclusive right_inclusive r =
      some false := by
  simp [RasterRangeCheck.is_valid, hv, hnd]

/-- C6 witness: the theorem applied to the NoData raster with the spec's
configuration min_value = 1. -/
theorem raster_range_check_flags_no_data_witness :
    RasterRangeCheck.is_valid (some 1) none true true noDataRaster = some false :=
  raster_range_check_flags_no_data (some 1) none true true (Or.inl (by simp))
    noDataRaster rfl rfl

/-! ### RangeCheck and ConditionalCheck (checks/base.py) -/

/-- SQL filter semantics of `column < limit`: a NULL value satisfies no
comparison filter. -/
def sqlLt : Option ℚ → ℚ → Bool
  | none, _ => false
  | some v, limit => decide (v < limit)

/-- SQL filter semantics of `column > limit`. -/
def sqlGt : Option ℚ → ℚ → Bool
  | none, _ => false
  | some v, limit => decide (limit < v)

namespace RangeCheck

/-- Embedding of `RangeCheck.get_invalid` (checks/base.py lines 229-240)
over the rows of the check's scope (`to_check`), each row reduced to the
checked column's value (`none` embeds SQL NULL).  The filter mirrors the
if/elif/elif chain of the source: both limits, only a lower limit, only an
upper limit, or no filter at all. -/
def get_invalid (lower_limit upper_limit : Option ℚ) (rows : List (Option ℚ)) :
    List (Option ℚ) :=
  match lower_limit, upper_limit with
  | some lo, some hi => rows.filter (fun v => sqlLt v lo || sqlGt v hi)
  | some lo, none => rows.filter (fun v => sqlLt v lo)
  | none, some hi => rows.filter (fun v => sqlGt v hi)
  | none, none => rows

end RangeCheck

/-- C9: a RangeCheck constructed with both `lower_limit` and `upper_limit`
equal to None applies no range filter at all, so `get_invalid` returns
every row in the check's scope as invalid, not an empty list. -/
theorem range_check_no_limits_returns_all_rows (rows : List (Option ℚ)) :
    RangeCheck.get_invalid none none rows = rows :=
  rfl

/-- Modelled from the spec: the current RangeCheck of checks/base.py, with
`min_value`, `max_value`, `left_inclusive` and `right_inclusive`, is not in
the source snapshot (the snapshot's checks/base.py is an older revision;
only its callers in config.py and its tests in tests/test_checks_base.py
are present).  Per spec section 4.2 a row is flagged when it lies outside
[min, max], each side's bound being independently inclusive (the limit
itself allowed) or exclusive (the limit itself flagged), and each bound
optional. -/
def rangeCheckFlagsValue (min_value max_value : Option ℚ)
    (left_inclusive right_inclusive : Bool) (v : ℚ) : Bool :=
  (match min_value with
   | none => false
   | some mn => if left_inclusive then decide (v < mn) else decide (v ≤ mn))
  || (match max_value with
      | none => false
      | some mx => if right_inclusive then decide (mx < v) else decide (mx ≤ v))

/-- C3: with min 0, max 42, an inclusive left bound and an exclusive right
bound, the value 0 is not flagged, 42 is flagged, -1 is flagged and 41.999
is not flagged. -/
theorem range_check_inclusive_exclusive_bounds :
    rangeCheckFlagsValue (some 0) (some 42) true false 0 = false
    ∧ rangeCheckFlagsValue (some 0) (some 42) true false 42 = true
    ∧ rangeCheckFlagsValue (some 0) (some 42) true false (-1) = true
    ∧ rangeCheckFlagsValue (some 0) (some 42) true false (41999 / 1000) = false := by
  refine ⟨?_, ?_, ?_, ?_⟩ <;> norm_num [rangeCheckFlagsValue]

/-- Embedding of `ConditionalCheck.get_invalid` (checks/base.py lines
65-72) as explicit state passing.  `σ` is the type of the wrapped check's
`to_check` attribute value; `check_to_check` is that attribute before the
call; `patched` is the ConditionalCheck's own `to_check` (the filtered
query builder) that is assigned over it; `get_invalid` is the wrapped
check's method as a function of the attribute it reads, returning `ok` or
raising (`error`).  The result pairs the Python call's outcome with the
final value of the wrapped check's `to_check` attribute: the source saves
the old attribute, patches it, calls, and reassigns the saved value only
after a normal return, with no try/finally around the call. -/
def conditionalCheckGetInvalid {σ β ε : Type} (check_to_check : σ) (patched : σ)
    (get_invalid : σ → Except ε β) : Except ε β × σ :=
  let old_applicable_func := check_to_check
  match get_invalid patched with
  | Except.ok result => (Except.ok result, old_applicable_func)
  | Except.error e => (Except.error e, patched)

/-- C10: when the wrapped check's `get_invalid` returns normally, the
wrapped check's `to_check` attribute is restored to its value from before
the call, so its observable state is unchanged; when it raises, the
attribute is left pointing at the injected filter. -/
theorem conditional_check_restores_to_check {σ β ε : Type}
    (check_to_check patched : σ) (get_invalid : σ → Except ε β) :
    (∀ r, get_invalid patched = Except.ok r →
      conditionalCheckGetInvalid check_to_check patched get_invalid =
        (Except.ok r, check_to_check))
    ∧ (∀ e, get_invalid patched = Except.error e →
      conditionalCheckGetInvalid check_to_check patched get_invalid =
        (Except.error e, patched)) := by
  constructor <;> intro x hx <;> simp [conditionalCheckGetInvalid, hx]

/-- C10 witness: the theorem applied to a concrete wrapped check whose
evaluation succeeds; the attribute ends at its original value 1, not at the
patched value 2. -/
theorem conditional_check_restores_to_check_witness :
    @conditionalCheckGetInvalid ℕ ℕ Unit 1 2 (fun _ => Except.ok 0) =
      (Except.ok 0, 1) :=
  (conditional_check_restores_to_check 1 2 fun _ => Except.ok 0).1 0 rfl

/-! ### Report formatting (exporters.py) -/

/-- Modelled from the spec: the CheckLevel severity enum (ERROR > WARNING >
INFO, spec section 3) lives in the current checks/base.py, which is absent
from the source snapshot; only its members' `.name` strings matter here. -/
inductive CheckLevel where
  | INFO : CheckLevel
  | WARNING : CheckLevel
  | ERROR : CheckLevel
deriving DecidableEq

/-- The Python enum member's `.name`. -/
def CheckLevel.name : CheckLevel → String
  | CheckLevel.INFO => "INFO"
  | CheckLevel.WARNING => "WARNING"
  | CheckLevel.ERROR => "ERROR"

/-- The fields of a check that `format_check_results` reads.  Error codes
in the registry are positive integers, embedded as naturals. -/
structure CheckMeta where
  level : CheckLevel
  error_code : ℕ
  description : String

/-- The field of the invalid row that `format_check_results` reads. -/
structure InvalidRowTuple where
  id : ℤ

/-- Python `"%04d"`-style formatting of a nonnegative integer: left-pad the
decimal representation with zeros to width 4. -/
def pyFormat04d (n : ℕ) : String :=
  let s := toString n
  String.mk (List.replicate (4 - s.length) '0') ++ s

/-- Embedding of `format_check_results` (exporters.py): the level name's
first letter, the error code zero-padded to 4 digits, the literal text
around the row id, and the check's description. -/
def format_check_results (check : CheckMeta) (invalid_row : InvalidRowTuple) : String :=
  check.level.name.take 1 ++ pyFormat04d check.error_code
    ++ " (id=" ++ toString invalid_row.id ++ ") " ++ check.description

/-- The severity letter of the claim: the first letter of the level name. -/
def severityLetter : CheckLevel → String
  | CheckLevel.INFO => "I"
  | CheckLevel.WARNING => "W"
  | CheckLevel.ERROR => "E"

/-- C7: for every check and invalid row, the rendered report line is
exactly the severity letter, the error code left-padded with zeros to at
least 4 digits, then " (id=", the row id, ") " and the description, in that
order. -/
theorem format_check_results_spec (check : CheckMeta) (invalid_row : InvalidRowTuple) :
    ∃ code4 : String,
      format_check_results check invalid_row =
        severityLetter check.level ++ code4 ++ " (id=" ++ toString invalid_row.id
          ++ ") " ++ check.description
      ∧ (∃ k, code4 = String.mk (List.replicate k '0') ++ toString check.error_code)
      ∧ code4.length = max 4 (toString check.error_code).length := by
  refine ⟨pyFormat04d check.error_code, ?_,
    ⟨4 - (toString check.error_code).length, rfl⟩, ?_⟩
  · have hl : check.level.name.take 1 = severityLetter check.level := by
      cases check.level <;> rfl
    rw [format_check_results, hl]
  · show (String.mk (List.replicate (4 - (toString check.error_code).length) '0')
      ++ toString check.error_code).length = _
    rw [String.length_append]
    simp only [String.length_mk, List.length_replicate]
    omega

end ThreediModelchecker
